import Mathlib

/-!
Verification of the GitLab-Agent backend's command parsing, diff-context
assembly and structured-output rendering pipeline, as a shallow embedding
of `Backend/app/agents/command_agent.py`,
`Backend/app/agents/commands/command_interface.py`,
`Backend/app/agents/commands/review.py`,
`Backend/app/agents/commands/help.py`,
`Backend/app/agents/utils.py` and
`Backend/app/services/command_handler.py`.

Python strings are modelled as Lean `String`/`List Char`; Python `dict`s
as ordered association lists; Python exceptions as `Except`; machine-level
details (all arithmetic is Python big-int) as `Nat`/`Int`.
-/

namespace GitLabAgent

/-! ## Python string primitives used by the source -/

/-- Characters matched by Python's `str.strip()` with no argument and by the
regex class `\s` restricted to ASCII (the source only ever feeds ASCII
whitespace through these paths): space, tab, newline, vertical tab, form
feed, carriage return. -/
def isPyWs (c : Char) : Bool :=
  c = ' ' || c = '\t' || c = '\n' || c = Char.ofNat 11 || c = Char.ofNat 12 || c = '\r'

/-- Strip `isPyWs` characters from both ends of a character list. -/
def stripChars (l : List Char) : List Char :=
  ((l.dropWhile isPyWs).reverse.dropWhile isPyWs).reverse

/-- Model of Python `str.strip()` (ASCII whitespace). -/
def pyStrip (s : String) : String :=
  String.mk (stripChars s.data)

/-- Model of Python `str.lower()` for the ASCII strings this code handles. -/
def pyLower (s : String) : String :=
  String.mk (s.data.map Char.toLower)

/-- Decimal digit to its character, for `0 ≤ n ≤ 9` (clamps above, never
reached by callers, which pass `n % 10`). -/
def digitChar10 : Nat → Char
  | 0 => '0' | 1 => '1' | 2 => '2' | 3 => '3' | 4 => '4'
  | 5 => '5' | 6 => '6' | 7 => '7' | 8 => '8' | _ => '9'

/-- Decimal representation with an explicit recursion budget (`fuel` is
always at least the number of digits, so the `0` case is never reached
from `natReprChars`); fuel keeps the definition structurally recursive. -/
def natReprRec : Nat → Nat → List Char
  | 0, _ => []
  | fuel + 1, n =>
    if n < 10 then [digitChar10 n]
    else natReprRec fuel (n / 10) ++ [digitChar10 (n % 10)]

/-- Decimal representation of a natural number as characters; models what
`str(n)` / f-string interpolation produces for a nonnegative Python int. -/
def natReprChars (n : Nat) : List Char :=
  natReprRec (n + 1) n

/-- Model of Python `str(n)` for a nonnegative int. -/
def natRepr (n : Nat) : String :=
  String.mk (natReprChars n)

/-- Model of Python `str(v)` for an arbitrary int. -/
def intReprChars (v : Int) : List Char :=
  if v < 0 then '-' :: natReprChars v.natAbs else natReprChars v.toNat

/-- Decimal value of a digit character (`c.toNat - '0'.toNat` on digits). -/
def digitVal (c : Char) : Nat := c.toNat - 48

/-- Value of a digit-character list read in base 10; models `int(s)` on a
string of digits. -/
def natOfDigits (ds : List Char) : Nat :=
  ds.foldl (fun a c => 10 * a + digitVal c) 0

/-- Model of Python `int(s)` on an already-stripped string: an optional
sign followed by one or more ASCII digits succeeds, anything else raises
(`none`).  (Python's `int` additionally accepts underscores and unicode
digits; the source never feeds those on the verified paths.) -/
def parseIntChars : List Char → Option Int
  | [] => none
  | c :: ds =>
    if c = '-' then
      if !ds.isEmpty && ds.all Char.isDigit then some (-(natOfDigits ds : Int)) else none
    else if c = '+' then
      if !ds.isEmpty && ds.all Char.isDigit then some (natOfDigits ds : Int) else none
    else if (c :: ds).all Char.isDigit then some (natOfDigits (c :: ds) : Int)
    else none

/-- Model of Python `s.startswith(pre)` (and of Lean's `String.startsWith`,
restated over character lists so that it reduces in the kernel). -/
def pyStartsWith (s pre : String) : Bool :=
  pre.data.isPrefixOf s.data

/-- Model of Python `s[n:]` for a nonnegative index. -/
def pyDrop (s : String) (n : Nat) : String :=
  String.mk (s.data.drop n)

/-- Python `s.split(sep)` for a single-character separator, on character
lists. -/
def splitOnChar (sep : Char) : List Char → List (List Char)
  | [] => [[]]
  | c :: rest =>
    match splitOnChar sep rest with
    | [] => [[c]]
    | h :: t => if c = sep then [] :: h :: t else (c :: h) :: t

/-- Model of Python `s.rjust(w)`: left-pad with spaces to width `w`. -/
def rjustStr (w : Nat) (s : String) : String :=
  if s.length < w then String.mk (List.replicate (w - s.length) ' ') ++ s else s

/-- Model of Python `n * s` string repetition for `n : Nat`. -/
def strRepeat (s : String) (n : Nat) : String :=
  String.join (List.replicate n s)

/-- Model of Python `str.splitlines()` on character lists, for text whose
line separators are `\n` (the only separator in the diff texts this code
processes): split at each newline, with no trailing empty line for a
trailing `\n`. -/
def splitlinesGo (acc : List Char) : List Char → List (List Char)
  | [] => [acc.reverse]
  | c :: rest =>
    if c = '\n' then
      acc.reverse :: (match rest with | [] => [] | _ => splitlinesGo [] rest)
    else splitlinesGo (c :: acc) rest

/-- Model of Python `str.splitlines()` (newline separators only). -/
def pySplitlines (s : String) : List String :=
  match s.data with
  | [] => []
  | l => (splitlinesGo [] l).map String.mk

/-! ## CommandAgent._parse_bot_command (`command_agent.py:98-150`)

The Python source iterates `for token in it:` over `it = iter(tokens[1:])`
and, on a flag token followed by another `--` token, executes
`it = iter([nxt] + list(it))`.  The `for` statement captured the original
iterator object once, so rebinding the *name* `it` does not change the
loop's iterator, and `list(it)` has just exhausted it: the loop therefore
terminates at that point and the tokens moved into the new iterator are
discarded.  The embedding reproduces that actual runtime behaviour. -/

/-- Value of a parsed flag: Python `str | bool` (only `True` occurs). -/
inductive FlagVal where
  | bool (b : Bool)
  | str (s : String)
  deriving DecidableEq, Repr

/-- Python `dict` assignment `d[k] = v` on an insertion-ordered
association list: overwrite in place if the key exists, else append. -/
def dictSet (kvs : List (String × FlagVal)) (k : String) (v : FlagVal) :
    List (String × FlagVal) :=
  if kvs.any (fun kv => kv.1 = k) then
    kvs.map (fun kv => if kv.1 = k then (k, v) else kv)
  else kvs ++ [(k, v)]

/-- The `for token in it:` loop of `_parse_bot_command`.  The third branch
(`nxt` starts with `--`) sets the flag to `True` and then terminates: the
source's `it = iter([nxt] + list(it))` exhausts the iterator driving the
loop (see module note), dropping `nxt` and every later token. -/
def parseLoop : List String → List (String × FlagVal) → List String →
    Except String (List (String × FlagVal) × List String)
  | [], flags, args => .ok (flags, args)
  | token :: rest, flags, args =>
    if pyStartsWith token "--" then
      let key := pyDrop token 2
      if key = "" then .error "Empty flag name \x27--\x27 detected."
      else
        match rest with
        | [] => parseLoop [] (dictSet flags key (.bool true)) args
        | nxt :: rest' =>
          if pyStartsWith nxt "--" then
            .ok (dictSet flags key (.bool true), args)
          else
            parseLoop rest' (dictSet flags key (.str nxt)) args
    else
      parseLoop rest flags (args ++ [token])

/-- Embedding of `CommandAgent._parse_bot_command`, after `shlex.split` has produced the
token list: returns `(command, flags, args)` or a `CommandParseError`
message. -/
def parseBotCommand : List String → Except String (String × List (String × FlagVal) × List String)
  | [] => .error "Empty command."
  | command :: rest =>
    (parseLoop rest [] []).map (fun fa => (command, fa.1, fa.2))

/-! ## Issue-reference extraction (`command_interface.py:250-263`) -/

/-- Python regex `\w` on the ASCII range: letters, digits, underscore. -/
def isWordChar (c : Char) : Bool :=
  c.isAlphanum || c = '_'

/-- Scanner for `re.findall(r"(?<!\w)#(\d+)", text)`: at each `#` whose
preceding character (if any) is not a word character and which is followed
by at least one digit, capture the digit run and resume scanning after it
(matches are non-overlapping, as with `findall`). -/
def scanRefsRec : Nat → Option Char → List Char → List Nat
  | 0, _, _ => []
  | fuel + 1, prev, l =>
    match l with
    | [] => []
    | c :: rest =>
      if c = '#' then
        let lookbehindBlocked := match prev with
          | some p => isWordChar p
          | none => false
        if lookbehindBlocked then scanRefsRec fuel (some '#') rest
        else
          let digits := rest.takeWhile Char.isDigit
          if digits.isEmpty then scanRefsRec fuel (some '#') rest
          else
            natOfDigits digits ::
              scanRefsRec fuel (some (digits.getLastD '0')) (rest.dropWhile Char.isDigit)
      else scanRefsRec fuel (some c) rest

/-- The scanner applied with a sufficient recursion budget (each step
consumes at least one character, so `l.length + 1` units of fuel are never
exhausted; fuel keeps the definition structurally recursive). -/
def scanIssueRefs (prev : Option Char) (l : List Char) : List Nat :=
  scanRefsRec (l.length + 1) prev l

/-- First-seen-order de-duplication of the matched issue numbers (the
`seen` set plus ordered `issue_ids` list of the source). -/
def dedupFirstSeen : List Nat → List Nat → List Nat
  | _, [] => []
  | seen, x :: xs =>
    if x ∈ seen then dedupFirstSeen seen xs
    else x :: dedupFirstSeen (x :: seen) xs

/-- Embedding of `CommandInterface._extract_issue_iids`: scan
`f"{title or ''}\n{description or ''}"` for `(?<!\w)#(\d+)` and return the
unique issue numbers in first-seen order. -/
def extractIssueIids (title description : Option String) : List Nat :=
  let combined := (title.getD "") ++ "\n" ++ (description.getD "")
  dedupFirstSeen [] (scanIssueRefs none combined.data)

/-! ## Diff line numbering (`command_interface.py:206-248`, duplicated
verbatim as `review.py:438-480`) -/

/-- Anchored match of the regex `@@\s+-([0-9]+)(?:,[0-9]+)?\s+\+([0-9]+)`
at the head of a character list, returning the two captured numbers.  The
regex engine's backtracking is deterministic here: the digit runs and the
optional `,len` group are greedy, and shorter alternatives can never make
a subsequent `\s+`/`\+` succeed, so a straight-line greedy scan is exact. -/
def matchHunkAnchored (cs : List Char) : Option (Nat × Nat) :=
  match cs with
  | '@' :: '@' :: r0 =>
    let ws1 := r0.takeWhile isPyWs
    if ws1.isEmpty then none
    else
      match r0.dropWhile isPyWs with
      | '-' :: r1 =>
        let ds1 := r1.takeWhile Char.isDigit
        if ds1.isEmpty then none
        else
          let r2 := r1.dropWhile Char.isDigit
          let r3 := match r2 with
            | ',' :: r2' =>
              let ds2 := r2'.takeWhile Char.isDigit
              if ds2.isEmpty then r2 else r2'.dropWhile Char.isDigit
            | _ => r2
          let ws2 := r3.takeWhile isPyWs
          if ws2.isEmpty then none
          else
            match r3.dropWhile isPyWs with
            | '+' :: r4 =>
              let ds3 := r4.takeWhile Char.isDigit
              if ds3.isEmpty then none
              else some (natOfDigits ds1, natOfDigits ds3)
            | _ => none
      | _ => none
  | _ => none

/-- Unanchored regex search (`re.search`): try the anchored match at every
start position, leftmost first. -/
def searchHunk : List Char → Option (Nat × Nat)
  | [] => matchHunkAnchored []
  | c :: rest =>
    match matchHunkAnchored (c :: rest) with
    | some p => some p
    | none => searchHunk rest

/-- Model of `re.search(r"@@\s+-([0-9]+)(?:,[0-9]+)?\s+\+([0-9]+)", line)` with the
two integer captures. -/
def parseHunkHeader (line : String) : Option (Nat × Nat) :=
  searchHunk line.data

/-- The `_format_prefix` helper: the counter right-justified to width 6,
or six spaces when the counter is still `None`. -/
def counterPad : Option Nat → String
  | some n => rjustStr 6 (natRepr n)
  | none => String.mk (List.replicate 6 ' ')

/-- Increment a counter if it is seeded (`if line_no is not None`). -/
def incCounter : Option Nat → Option Nat
  | some n => some (n + 1)
  | none => none

/-- Per-line loop of `_format_diff_with_line_numbers`, carrying the
`old_line_no` and `new_line_no` counters. -/
def fmtDiffGo : List String → Option Nat → Option Nat → List String
  | [], _, _ => []
  | line :: rest, oldNo, newNo =>
    if pyStartsWith line "@@" then
      match parseHunkHeader line with
      | some ab => line :: fmtDiffGo rest (some ab.1) (some ab.2)
      | none => line :: fmtDiffGo rest oldNo newNo
    else if pyStartsWith line "+" && !pyStartsWith line "+++" then
      (counterPad newNo ++ " " ++ line) :: fmtDiffGo rest oldNo (incCounter newNo)
    else if pyStartsWith line "-" && !pyStartsWith line "---" then
      (counterPad oldNo ++ " " ++ line) :: fmtDiffGo rest (incCounter oldNo) newNo
    else if pyStartsWith line " " || pyStartsWith line "\t" then
      line :: fmtDiffGo rest (incCounter oldNo) (incCounter newNo)
    else
      line :: fmtDiffGo rest oldNo newNo

/-- Embedding of `CommandInterface._format_diff_with_line_numbers`. -/
def formatDiffWithLineNumbers (diffText : String) : String :=
  String.intercalate "\n" (fmtDiffGo (pySplitlines diffText) none none)

/-! Spec-side model of the diff-numbering claim, written from the claim's
sentences (state seeded by hunk headers; `+`-but-not-`+++` lines prefixed
with the new counter right-justified to width 6 and the new counter
incremented; `-`-but-not-`---` lines prefixed with the old counter which
is then incremented; space/tab lines increment both counters and pass
through unprefixed; all other lines pass through unchanged; `+`/`-` lines
with unseeded counters get a six-space prefix). -/

/-- State of the claimed annotation automaton: the optional old/new
counters ("unseeded" = `none`). -/
structure AnnState where
  oldCtr : Option Nat
  newCtr : Option Nat
  deriving Repr, DecidableEq

/-- One step of the claimed annotation: from the current state and line,
the emitted line and the next state. -/
def annStep (st : AnnState) (line : String) : String × AnnState :=
  if pyStartsWith line "@@" then
    match parseHunkHeader line with
    | some ab => (line, ⟨some ab.1, some ab.2⟩)
    | none => (line, st)
  else if pyStartsWith line "+" && !pyStartsWith line "+++" then
    match st.newCtr with
    | some n => (rjustStr 6 (natRepr n) ++ " " ++ line, ⟨st.oldCtr, some (n + 1)⟩)
    | none => ("      " ++ " " ++ line, st)
  else if pyStartsWith line "-" && !pyStartsWith line "---" then
    match st.oldCtr with
    | some n => (rjustStr 6 (natRepr n) ++ " " ++ line, ⟨some (n + 1), st.newCtr⟩)
    | none => ("      " ++ " " ++ line, st)
  else if pyStartsWith line " " || pyStartsWith line "\t" then
    (line, ⟨incCounter st.oldCtr, incCounter st.newCtr⟩)
  else
    (line, st)

/-- Run the claimed annotation automaton over a list of lines. -/
def annRun (st : AnnState) : List String → List String
  | [] => []
  | line :: rest =>
    let (out, st') := annStep st line
    out :: annRun st' rest

/-- Claim-side annotate: split into lines, run the automaton from the
unseeded state, and re-join with newlines. -/
def annotateSpec (diffText : String) : String :=
  String.intercalate "\n" (annRun ⟨none, none⟩ (pySplitlines diffText))

/-! ## Diff-context assembly (`command_interface.py:130-204`,
`utils.py:7-9`)

The elements of `mr.diffs.get(version.id).diffs` are plain JSON
dictionaries (the code calls `.get` on them, a `dict` method).  String
values delivered by the GitLab API are modelled as `Option String`
(`none` = key absent / JSON null, both falsy in the source's
`x.get(k) or fallback` chains), and the boolean marks as `Bool`
(absent / null / false are all falsy). -/

/-- One element of the GitLab diff list. -/
structure DiffEntry where
  diff : Option String
  old_path : Option String
  new_path : Option String
  new_file : Bool
  deleted_file : Bool
  renamed_file : Bool
  generated_file : Bool
  /-- The source's too-large mark (dictionary key `"too_large"`). -/
  too_large : Bool
  /-- The source's collapsed mark (dictionary key `"collapsed"`). -/
  collapsed : Bool
  deriving Repr, DecidableEq

/-- Embedding of `token_counter` (`utils.py`): `len(text) // 4`. -/
def tokenCounter (text : String) : Nat :=
  text.length / 4

/-- Value of `diff.get("diff", "") or ""`. -/
def diffTextOf (d : DiffEntry) : String :=
  (d.diff.getD "")

/-- Python truthiness of an optional string value. -/
def truthyStr : Option String → Bool
  | some s => s ≠ ""
  | none => false

/-- Value of `diff.get("new_path", "") or diff.get("old_path", "unknown")`: the
name recorded for a skipped file. -/
def ignoredNameOf (d : DiffEntry) : String :=
  if truthyStr d.new_path then d.new_path.getD "" else d.old_path.getD "unknown"

/-- Value of the chain `diff.get(..new_path..) or diff.get(..old_path..) or "unknown"`: the name
shown in the per-file header. -/
def headerNameOf (d : DiffEntry) : String :=
  if truthyStr d.new_path then d.new_path.getD ""
  else if truthyStr d.old_path then d.old_path.getD ""
  else "unknown"

/-- Status classification with precedence
`new_file > deleted_file > renamed_file > generated_file > modified`. -/
def statusOf (d : DiffEntry) : String :=
  if d.new_file then "added"
  else if d.deleted_file then "deleted"
  else if d.renamed_file then "renamed"
  else if d.generated_file then "generated"
  else "modified"

/-- Model of `getattr(diff, "too_large", False)` where `diff` is a plain `dict`:
a dictionary has no such attribute, so the default `False` is always
returned — the dictionary keys `"too_large"`/`"collapsed"` (fields
`too_large`/`collapsed` of `DiffEntry`) are never consulted. -/
def getattrMark (_d : DiffEntry) (_name : String) : Bool :=
  false

/-- The source's `can_review` expression:
`not getattr(diff, "too_large", False) and not getattr(diff, "collapsed",
False) and bool(diff_text.strip())`. -/
def canReview (d : DiffEntry) : Bool :=
  !getattrMark d "too_large" && !getattrMark d "collapsed" && pyStrip (diffTextOf d) ≠ ""

/-- Python `str(b).lower()` for a bool. -/
def pyBoolStr (b : Bool) : String :=
  if b then "true" else "false"

/-- Python `str` of an optional string as interpolated by an f-string:
`None` prints as `"None"`. -/
def pyOptStr : Option String → String
  | some s => s
  | none => "None"

/-- The `context_lines` appended for one reviewable-or-not file (the body
of the `for diff in mr_diffs` loop after the token-budget check). -/
def entryBlock (d : DiffEntry) : List String :=
  ["## File: \x27" ++ headerNameOf d ++ "\x27",
   "old_path: " ++ pyOptStr d.old_path,
   "new_path: " ++ pyOptStr d.new_path,
   "status: " ++ statusOf d,
   "can_review_diff: " ++ pyBoolStr (canReview d),
   ""]
  ++ (if canReview d then ["Diff:", formatDiffWithLineNumbers (diffTextOf d)]
      else ["Diff unavailable"])
  ++ [""]

/-- The diff-list loop: per-file blocks for files within the token budget
(in original order) and the `ignored_files` names for the others. -/
def gatherBlocks (budget : Nat) : List DiffEntry → List String × List String
  | [] => ([], [])
  | d :: rest =>
    let (blocks, ignored) := gatherBlocks budget rest
    if budget < tokenCounter (diffTextOf d) then
      (blocks, ignoredNameOf d :: ignored)
    else
      (entryBlock d ++ blocks, ignored)

/-- Embedding of `CommandInterface._gether_gitlab_diff` from the point where the diff
list has been fetched: header lines, per-file blocks, optional trailing
skipped-files note, joined with newlines.  `title`/`description` are the
f-string interpolations of `mr.title` / `mr.description`. -/
def getherGitlabDiffBody (title description : String) (budget : Nat)
    (entries : List DiffEntry) : String :=
  let (blocks, ignored) := gatherBlocks budget entries
  String.intercalate "\n"
    (["Merge Request Title: " ++ title,
      "Merge Request Description: " ++ description,
      ""]
     ++ blocks
     ++ (if ignored.isEmpty then []
         else ["Note: The following files were skipped due to size constraints: "
               ++ String.intercalate ", " ignored]))

/-! ## gether_gitlab_data (`command_interface.py:62-145`)

The GitLab network calls are modelled as `Except`-valued oracles supplied
to the function; `Exc.gitlab` is an exception of class `gitlab.GitlabError`
and `Exc.other` any exception of a different class (for example a
transport-level `requests.exceptions.ConnectionError`).  A Lean result of
`.error e` means the Python function lets exception `e` propagate. -/

/-- A Python exception, classified by whether it is a `gitlab.GitlabError`. -/
inductive Exc where
  | gitlab (msg : String)
  | other (msg : String)
  deriving Repr, DecidableEq

/-- The merge-request object fields the function reads. -/
structure MrInfo where
  title : Option String
  source_branch : String
  description : Option String
  deriving Repr, DecidableEq

/-- Issue fields read when building a `RelatedIssue`. -/
structure IssueInfo where
  title : Option String
  labels : Option (List String)
  description : Option String
  deriving Repr, DecidableEq

/-- The `RelatedIssue` pydantic model. -/
structure RelatedIssue where
  id : String
  title : String
  labels : List String
  description : String
  deriving Repr, DecidableEq

/-- The `data` dictionary returned by `gether_gitlab_data`. -/
structure GatheredData where
  title : String
  branch : String
  diff : String
  description : Option String
  related_issues : List RelatedIssue
  deriving Repr, DecidableEq

/-- The initial `data` dictionary: empty title, branch and diff, `None`
description, no related issues. -/
def emptyGathered : GatheredData :=
  { title := "", branch := "", diff := "", description := none, related_issues := [] }

/-- The `for issue_iid in issue_ids` loop: each issue is fetched
independently; any exception (both `except gitlab.GitlabError` and the
catch-all `except Exception` arms) is logged and the issue omitted. -/
def resolveIssues (fetchIssue : Nat → Except Exc IssueInfo) (ids : List Nat) :
    List RelatedIssue :=
  ids.filterMap (fun iid =>
    match fetchIssue iid with
    | .ok info => some
        { id := "#" ++ natRepr iid,
          title := info.title.getD "",
          labels := info.labels.getD [],
          description := info.description.getD "" }
    | .error _ => none)

/-- Fetch phase of `_gether_gitlab_diff`: the oracle returns the diff list
of the latest version, `.ok none` when `mr.diffs.list` came back empty
(the function returns `""` with a warning), and `.error e` when either
call raised.  The surrounding `except Exception` catches every exception
and returns `""`. -/
def getherDiffOrEmpty (title description : Option String) (budget : Nat)
    (fetchDiffList : Except Exc (Option (List DiffEntry))) : String :=
  match fetchDiffList with
  | .error _ => ""
  | .ok none => ""
  | .ok (some entries) =>
    getherGitlabDiffBody (pyOptStr title) (pyOptStr description) budget entries

/-- Embedding of `CommandInterface.gether_gitlab_data`.  The MR fetch
(`projects.get` + `mergerequests.get`) is guarded only by
`except gitlab.GitlabError`, which returns the initial `data`; a
non-`GitlabError` exception there propagates to the caller.  The diff
build is guarded by a catch-all `except Exception` (the diff stays `""`),
and issue fetch failures are dropped per-issue. -/
def getherGitlabData (fetchMr : Except Exc MrInfo)
    (fetchDiffList : Except Exc (Option (List DiffEntry)))
    (fetchIssue : Nat → Except Exc IssueInfo) (budget : Nat) :
    Except Exc GatheredData :=
  match fetchMr with
  | .error (.gitlab _) => .ok emptyGathered
  | .error e => .error e
  | .ok mr =>
    let diff := getherDiffOrEmpty mr.title mr.description budget fetchDiffList
    let ids := extractIssueIids mr.title mr.description
    .ok { title := pyOptStr mr.title,
          branch := mr.source_branch,
          diff := diff,
          description := mr.description,
          related_issues := resolveIssues fetchIssue ids }

/-! ## Help dispatch (`help.py:6-29`, `command_agent.py:65-89`)

`CommandAgent.run` invokes `command_instance.run(project_id, mr_iid,
flags, args)` — four positional arguments.  `HelpCommand.run` is declared
`async def run(self, flags, args)` with exactly two positional parameters
(and no defaults or `*args`), so Python raises `TypeError` at the call.
The call is modelled by an explicit positional-arity check. -/

/-- A Python runtime error surfaced by the dispatch model. -/
inductive PyErr where
  | typeError
  | commandParseError (msg : String)
  deriving Repr, DecidableEq

/-- Number of positional parameters of `HelpCommand.run` after `self`
(`flags`, `args`). -/
def helpRunParamCount : Nat := 2

/-- Number of positional arguments `CommandAgent.run` passes to a
command's `run` (`project_id`, `mr_iid`, `flags`, `args`). -/
def dispatchArgCount : Nat := 4

/-- The fixed usage text returned by `HelpCommand.run`, with
`settings.frontend_url` interpolated at the end. -/
def helpUsageText (frontendUrl : String) : String :=
  "## Smart Agent — Help\n\n" ++
  "Invoke the Smart Agent by typing `@<bot_name>` or `@<bot_username>` anywhere in your message.  \n" ++
  "Example: `@bot how can I improve this code?`\n\n" ++
  "• You may edit the Smart Agent’s system prompt from the GitLab Agent Dashboard.  \n" ++
  "• The Smart Agent has access to previous comments in the same thread, allowing continuous conversation.  \n" ++
  "• You may also assign the Smart Agent as a reviewer on a merge request.\n\n" ++
  "## Command Agent — Help\n\n" ++
  "Invoke the Command Agent by typing `@<bot_name>/<command>` or `@<bot_username>/<command>` at the **start** of your message.  \n" ++
  "Example: `@project_90_bot_b4a2e933c93d73e105430f3224e52815/help`\n\n" ++
  "Available commands:\n" ++
  "- `/help` — Show this help message.\n" ++
  "- `/review` — Review the merge request for code quality and compliance. **(Not implemented)**\n" ++
  "- `/describe` — Describe the merge request and its changes. **(Not implemented)**\n" ++
  "- `/suggest` — Suggest code improvements. **(Not implemented)**\n" ++
  "- `/add_docs` — Add or update documentation related to the merge request. **(Not implemented)**\n\n" ++
  "GitLab Agent Dashboard: " ++ frontendUrl

/-- Calling `HelpCommand.run` with the dispatcher's argument list: Python
binds positional arguments to positional parameters and raises `TypeError`
when the counts differ. -/
def callHelpRun (frontendUrl : String) : Except PyErr String :=
  if dispatchArgCount = helpRunParamCount then .ok (helpUsageText frontendUrl)
  else .error .typeError

/-- Keys of the `CommandAgent.commands` dispatch table. -/
def commandNames : List String :=
  ["help", "review", "describe", "suggest", "add_docs"]

/-- Embedding of `CommandAgent.run` on the token list of the incoming message: parse,
reject names outside the command table, then call the handler's `run` with
four positional arguments.  The `help` handler is modelled concretely
(`callHelpRun`); the remaining handlers invoke the LLM collaborator and
are abstracted as the `otherHandler` oracle. -/
def commandAgentRun (tokens : List String) (frontendUrl : String)
    (otherHandler : String → Except PyErr String) : Except PyErr String :=
  match parseBotCommand tokens with
  | .error msg => .error (.commandParseError msg)
  | .ok (name, _flags, _args) =>
    if name ∉ commandNames then .error (.commandParseError ("Unknown command: " ++ name))
    else if name = "help" then callHelpRun frontendUrl
    else otherHandler name

/-! ## Dynamic output schema (`review.py:103-129`)

`ReviewCommand.run` builds `model_fields`, a dict from field name to a
`(type, default)` pair, drops the entries whose type slot is `None`, and
passes the rest to `pydantic.create_model`.  The pydantic semantics used
here: a default of `Ellipsis` (`...`) marks the field required — validating
data that lacks it raises `ValidationError`; a default of `None` makes the
field optional with value `None` when missing; `model_dump` of a validated
instance contains exactly the model's fields. -/

/-- A JSON-ish Python value (the shapes the renderer and validator see). -/
inductive PyVal where
  | vNone
  | vBool (b : Bool)
  | vInt (n : Int)
  | vStr (s : String)
  | vList (xs : List PyVal)
  | vDict (kvs : List (String × PyVal))

/-- The type slot of a `model_fields` entry. -/
inductive FieldType where
  | listIssueCompliance
  | optInt
  | optStr
  | listKeyIssues
  deriving Repr, DecidableEq

/-- The default slot of a `model_fields` entry: `None` or `Ellipsis`. -/
inductive FieldDefault where
  | dNone
  | dRequired
  deriving Repr, DecidableEq

/-- The `model_fields` dict literal of `ReviewCommand.run`, in source
order.  `relatedIssues` is the truthiness of `input_data.related_issues`;
the other five parameters are the `require_*` booleans of `ReviewInput`. -/
def modelFields (relatedIssues reqEffort reqScore reqTests reqSecurity reqPrompt : Bool) :
    List (String × (Option FieldType × FieldDefault)) :=
  [("issue_compliance_check",
    if relatedIssues then (some .listIssueCompliance, .dNone) else (none, .dRequired)),
   ("estimated_effort_to_review",
    if reqEffort then (some .optInt, .dNone) else (none, .dRequired)),
   ("score",
    if reqScore then (some .optStr, .dNone) else (none, .dRequired)),
   ("relevant_tests",
    if reqTests then (some .optStr, .dNone) else (none, .dRequired)),
   ("security_concerns",
    if reqSecurity then (some .optStr, .dNone) else (none, .dRequired)),
   ("prompt_suggestion_for_agent",
    if reqPrompt then (some .optStr, .dNone) else (none, .dRequired)),
   ("key_issues_to_review", (some .listKeyIssues, .dRequired))]

/-- The comprehension `{k: v for k, v in model_fields.items() if v[0] is
not None}`: the fields actually handed to `create_model`. -/
def createdFields (relatedIssues reqEffort reqScore reqTests reqSecurity reqPrompt : Bool) :
    List (String × (Option FieldType × FieldDefault)) :=
  (modelFields relatedIssues reqEffort reqScore reqTests reqSecurity reqPrompt).filter
    (fun kv => kv.2.1.isSome)

/-- Pydantic validation of an LLM payload against the created model's
fields, followed by `model_dump`: each field takes the payload's value
when the key is present, the default `None` when absent and optional, and
fails with the field's name when absent and required.  The dump's keys are
exactly the model's fields (extra payload keys are ignored, pydantic's
default). -/
def validateDump : List (String × (Option FieldType × FieldDefault)) →
    List (String × PyVal) → Except String (List (String × PyVal))
  | [], _ => .ok []
  | kv :: rest, payload =>
    let entry : Except String (String × PyVal) :=
      match payload.find? (fun e => e.1 = kv.1) with
      | some e => .ok (kv.1, e.2)
      | none =>
        match kv.2.2 with
        | .dNone => .ok (kv.1, PyVal.vNone)
        | .dRequired => .error kv.1
    match entry with
    | .error e => .error e
    | .ok b =>
      match validateDump rest payload with
      | .error e => .error e
      | .ok bs => .ok (b :: bs)

/-! ## Review markdown rendering (`review.py:147-354`, `utils.py:12-127`) -/

mutual
/-- Python `repr(v)` for the JSON-ish values above (string escaping inside
reprs is not modelled; the renderer only ever calls `str` on scalars on
the verified paths). -/
def pyReprVal : PyVal → String
  | .vNone => "None"
  | .vBool b => if b then "True" else "False"
  | .vInt n => String.mk (intReprChars n)
  | .vStr s => "\x27" ++ s ++ "\x27"
  | .vList xs => "[" ++ pyReprSeq xs ++ "]"
  | .vDict kvs => "\x7b" ++ pyReprKvs kvs ++ "\x7d"

/-- Comma-separated reprs of a list's elements. -/
def pyReprSeq : List PyVal → String
  | [] => ""
  | [x] => pyReprVal x
  | x :: y :: xs => pyReprVal x ++ ", " ++ pyReprSeq (y :: xs)

/-- Comma-separated `'key': value` reprs of a dict's items. -/
def pyReprKvs : List (String × PyVal) → String
  | [] => ""
  | [kv] => "\x27" ++ kv.1 ++ "\x27: " ++ pyReprVal kv.2
  | kv :: kv' :: kvs => "\x27" ++ kv.1 ++ "\x27: " ++ pyReprVal kv.2 ++ ", " ++ pyReprKvs (kv' :: kvs)
end

/-- Python `str(v)`: like `repr` except that a string is returned as is. -/
def pyStrVal : PyVal → String
  | .vStr s => s
  | v => pyReprVal v

/-- The renderer's skip test
`value is None or value == "" or value == {} or value == []`. -/
def isEmptyish : PyVal → Bool
  | .vNone => true
  | .vStr s => s = ""
  | .vList xs => xs.isEmpty
  | .vDict kvs => kvs.isEmpty
  | _ => false

/-- Python truthiness of a value (`if not value` tests). -/
def pyTruthy : PyVal → Bool
  | .vNone => false
  | .vBool b => b
  | .vInt n => n ≠ 0
  | .vStr s => s ≠ ""
  | .vList xs => !xs.isEmpty
  | .vDict kvs => !kvs.isEmpty

/-- The `_is_value_no` helper: a string whose stripped, lowered form is
exactly `"no"`. -/
def isValueNo : PyVal → Bool
  | .vStr s => pyLower (pyStrip s) = "no"
  | _ => false

/-- Model of `key.replace("_", " ")` (single-character pattern, hence per-char). -/
def replaceUnderscore (s : String) : String :=
  String.mk (s.data.map (fun c => if c = '_' then ' ' else c))

/-- Python `str.capitalize()`: first character uppercased, the rest
lowercased (ASCII). -/
def pyCapitalize (s : String) : String :=
  match s.data with
  | [] => ""
  | c :: cs => String.mk (Char.toUpper c :: cs.map Char.toLower)

/-- Substring test: Python `pat in hay`. -/
def subOccursIn (pat : List Char) : List Char → Bool
  | [] => pat.isEmpty
  | l@(_ :: rest) => pat.isPrefixOf l || subOccursIn pat rest

/-- Substring test on strings. -/
def strContainsSub (hay pat : String) : Bool :=
  subOccursIn pat.data hay.data

/-- The `ReviewCommand.emojis` table lookup (`self.emojis.get(key_nice,
"")`). -/
def emojiFor (keyNice : String) : String :=
  if keyNice = "Can be split" then "🔀"
  else if keyNice = "Key issues to review" then "⚡"
  else if keyNice = "Recommended focus areas for review" then "⚡"
  else if keyNice = "Score" then "🏅"
  else if keyNice = "Relevant tests" then "🧪"
  else if keyNice = "Focused PR" then "✨"
  else if keyNice = "Relevant issue" then "🎫"
  else if keyNice = "Security concerns" then "🔒"
  else if keyNice = "Insights from user\x27s answers" then "📝"
  else if keyNice = "Code feedback" then "🤖"
  else if keyNice = "Estimated effort to review" then "⏱️"
  else if keyNice = "Issue compliance check" then "🎫"
  else if keyNice = "Prompt suggestion for agent" then "🤖"
  else ""

/-- First index of `pat` in a character list, or `none`; models Python
`str.find` (which returns `-1` for `none`). -/
def findSubAt (pat : List Char) : List Char → Option Nat
  | [] => if pat.isEmpty then some 0 else none
  | l@(_ :: rest) =>
    if pat.isPrefixOf l then some 0
    else (findSubAt pat rest).map (· + 1)

/-- Embedding of `emphasize_header(text)` from `utils.py` with the default
`only_markdown=False, reference_link=None` arguments (the only form the
review renderer calls): wrap everything up to and including the first
`": "` colon in `<strong>` tags followed by `<br>`. -/
def emphasizeHeader (text : String) : String :=
  match findSubAt [':', ' '] text.data with
  | some pos =>
    "<strong>" ++ String.mk (text.data.take (pos + 1)) ++ "</strong>" ++ "<br>"
      ++ String.mk (text.data.drop (pos + 1))
  | none => text

/-- Model of Python strip with a backtick argument: remove backtick characters from both ends. -/
def stripBackticks (s : String) : String :=
  String.mk (((s.data.dropWhile (· = '\x60')).reverse.dropWhile (· = '\x60')).reverse)

/-- Model of `str.lstrip("/")`: strip slashes from the left end. -/
def lstripSlash (s : String) : String :=
  String.mk (s.data.dropWhile (· = '/'))

/-- Embedding of `get_line_link` from `utils.py` (with the default
`github_style_range=False`; the two range branches produce the same
anchor text).  `relevantLineEnd = none` models Python `None`. -/
def getLineLink (glUrl projectPath sourceBranch relevantFile : String)
    (relevantLineStart : Int) (relevantLineEnd : Option Int) : String :=
  let rf := lstripSlash (stripBackticks (pyStrip relevantFile))
  let base := glUrl ++ "/" ++ projectPath ++ "/-/blob/" ++ sourceBranch ++ "/" ++ rf
    ++ "?ref_type=heads"
  if relevantLineStart = -1 then base
  else
    match relevantLineEnd with
    | some e =>
      if e ≠ 0 then
        base ++ "#L" ++ String.mk (intReprChars relevantLineStart) ++ "-L"
          ++ String.mk (intReprChars e)
      else base ++ "#L" ++ String.mk (intReprChars relevantLineStart)
    | none => base ++ "#L" ++ String.mk (intReprChars relevantLineStart)

/-- Embedding of `_get_snippet` of `ReviewCommand._convert_to_markdown`; `fetchFile`
models `fetch_file`, returning `none` on any fetch failure. -/
def getSnippet (fetchFile : String → Option String) (filePath : String)
    (startL endL : Int) : String :=
  if filePath = "" then ""
  else
    match fetchFile filePath with
    | none => ""
    | some content =>
      if content = "" then ""
      else
        let lines := pySplitlines content
        let startIdx : Nat := if startL ≤ 0 then 0 else (startL - 1).toNat
        let endIdx : Int := if endL > 0 then endL else (startIdx : Int) + 1
        let endIdx' : Nat := (min endIdx (lines.length : Int)).toNat
        let idxs := (List.range (endIdx' - startIdx)).map (· + startIdx)
        String.intercalate "\n"
          (idxs.map (fun i => rjustStr 5 (natRepr (i + 1)) ++ " " ++ lines.getD i ""))

/-- Dictionary lookup `issue.get(key, default)`. -/
def dictGet (kvs : List (String × PyVal)) (k : String) (dflt : PyVal) : PyVal :=
  match kvs.find? (fun kv => kv.1 = k) with
  | some kv => kv.2
  | none => dflt

/-- Value of `issue.get(k, "") or ""` followed by string use: the structured
output's schema makes these values strings, so non-string values are
folded to `""` (where CPython would raise at the subsequent `str` method
call; never hit with schema-conforming output). -/
def dictGetStr (kvs : List (String × PyVal)) (k : String) : String :=
  match dictGet kvs k (.vStr "") with
  | .vStr s => s
  | _ => ""

/-- Value of `int(str(issue.get(k, 0) or 0))`: identity on the schema's int values;
non-numeric shapes are modelled as `0` (CPython would raise `ValueError`
there; never hit with schema-conforming output). -/
def dictGetInt (kvs : List (String × PyVal)) (k : String) : Int :=
  let v := dictGet kvs k (.vInt 0)
  let v := if pyTruthy v then v else PyVal.vInt 0
  match parseIntChars (stripChars (pyStrVal v).data) with
  | some n => n
  | none => 0

/-- Test used for `value_str.split(",")[0]`: characters before the first
comma. -/
def notCommaB (c : Char) : Bool :=
  c ≠ ','

/-- The `estimated effort to review` branch of the rendering loop. -/
def effortChunk (emoji : String) (value : PyVal) : String :=
  let valueStr := pyStrip (pyStrVal value)
  let firstField := valueStr.data.takeWhile notCommaB
  match parseIntChars (stripChars firstField) with
  | none => ""
  | some v =>
    let valueInt : Int := max 1 (min 5 v)
    let bars := strRepeat "🔵" valueInt.toNat ++ strRepeat "⚪" (5 - valueInt).toNat
    "<tr><td>" ++ emoji ++ "&nbsp;<strong>Estimated effort to review</strong>: "
      ++ String.mk (intReprChars valueInt) ++ " " ++ bars ++ "</td></tr>\n"

/-- The `relevant tests` branch. -/
def relevantTestsChunk (emoji : String) (value : PyVal) : String :=
  let valueStr := pyLower (pyStrip (pyStrVal value))
  "<tr><td>"
    ++ (if isValueNo (.vStr valueStr) then emoji ++ "&nbsp;<strong>No relevant tests</strong>"
        else emoji ++ "&nbsp;<strong>MR contains tests</strong>")
    ++ "</td></tr>\n"

/-- Rendering of one issue inside `_issue_markdown_logic`. -/
def complianceIssueChunk (issue : List (String × PyVal)) : String :=
  let idStr := dictGetStr issue "issue_id"
  let idStr := if pyStartsWith idStr "#" then idStr else "#" ++ idStr
  let title := dictGetStr issue "issue_title"
  let descr := dictGet issue "issue_description" (.vStr "")
  let compliant := dictGet issue "fully_compliant_points" (.vStr "")
  let notCompliant := dictGet issue "not_compliant_points" (.vStr "")
  let verify := dictGet issue "requires_further_human_verification" (.vStr "")
  (if title ≠ "" then "<strong>" ++ idStr ++ " - " ++ title ++ "</strong><br>" else "")
  ++ (if pyTruthy descr then "Issue Description: " ++ pyStrVal descr ++ "<br><br>" else "")
  ++ (if pyTruthy compliant then
        emphasizeHeader ("Fully compliant: " ++ pyStrVal compliant) ++ "<br><br>" else "")
  ++ (if pyTruthy notCompliant then
        emphasizeHeader ("Not compliant: " ++ pyStrVal notCompliant) ++ "<br><br>" else "")
  ++ (if pyTruthy verify then
        emphasizeHeader ("Needs verification: " ++ pyStrVal verify) ++ "<br><br>" else "")
  ++ "<br>"

/-- Embedding of `_issue_markdown_logic`: the `issue compliance check` branch. -/
def issueComplianceChunk (emoji : String) (value : PyVal) : String :=
  let base := "<tr><td>" ++ emoji ++ "&nbsp;<strong>Issue compliance check</strong>"
  if !pyTruthy value then base ++ "</td></tr>\n"
  else
    let issues := match value with | PyVal.vList xs => xs | _ => ([] : List PyVal)
    base ++ "<br><br>\n"
      ++ String.join (issues.map (fun iss =>
           match iss with
           | PyVal.vDict kvs => complianceIssueChunk kvs
           | _ => ""))
      ++ "</td></tr>\n"

/-- The `security concerns` branch. -/
def securityChunk (emoji : String) (value : PyVal) : String :=
  "<tr><td>"
    ++ (if isValueNo value then
          emoji ++ "&nbsp;<strong>No security concerns identified</strong>"
        else
          emoji ++ "&nbsp;<strong>Security concerns</strong><br><br>\n\n"
            ++ emphasizeHeader (pyStrip (pyStrVal value)))
    ++ "</td></tr>\n"

/-- The `prompt suggestion for agent` branch. -/
def promptSuggestionChunk (emoji : String) (value : PyVal) : String :=
  "<tr><td>"
    ++ (if isValueNo value then
          emoji ++ "&nbsp;<strong>No prompt suggestion provided</strong>"
        else
          emoji ++ "&nbsp;<strong>Prompt suggestion for comprehensive review by agent</strong><br><br>\n\n"
            ++ emphasizeHeader (pyStrip (pyStrVal value)))
    ++ "</td></tr>\n"

/-- Rendering of one issue of the non-empty `key issues to review` branch. -/
def keyIssueChunk (fetchFile : String → Option String)
    (projectPath gitlabBase sourceBranch : String)
    (issue : List (String × PyVal)) : String :=
  let relevantFile := pyStrip (dictGetStr issue "relevant_file")
  let issueHeader := pyStrip (dictGetStr issue "issue_header")
  let issueHeader := if pyLower issueHeader = "possible bug" then "Possible Issue" else issueHeader
  let issueContent := pyStrip (dictGetStr issue "issue_content")
  let startLine := dictGetInt issue "start_line"
  let endLine := dictGetInt issue "end_line"
  let snippet := getSnippet fetchFile relevantFile startLine endLine
  let referenceLink :=
    if projectPath ≠ "" then
      getLineLink gitlabBase projectPath sourceBranch relevantFile startLine
        (if endLine ≠ 0 then some endLine else none)
    else ""
  let headerStr :=
    if referenceLink ≠ "" then
      "<a href=\x27" ++ referenceLink ++ "\x27><strong>" ++ issueHeader ++ "</strong></a>"
    else "<strong>" ++ issueHeader ++ "</strong>"
  let issueStr :=
    if snippet ≠ "" then
      "<details><summary>" ++ headerStr ++ "\n\n" ++ issueContent
        ++ "</summary>\n\n```"
        ++ (if relevantFile ≠ "" then String.mk ((splitOnChar '.' relevantFile.data).getLastD []) else "")
        ++ "\n" ++ snippet ++ "\n```" ++ "\n</details>"
    else headerStr ++ "<br>" ++ issueContent
  issueStr ++ "\n\n"

/-- The `key issues to review` branch. -/
def keyIssuesChunk (fetchFile : String → Option String)
    (projectPath gitlabBase sourceBranch emoji : String) (value : PyVal) : String :=
  "<tr><td>"
    ++ (if isValueNo value || !pyTruthy value then
          emoji ++ "&nbsp;<strong>No major issues detected</strong>" ++ "</td></tr>\n"
        else
          emoji ++ "&nbsp;<strong>Recommended focus areas for review</strong><br><br>\n\n"
            ++ String.join ((match value with
                 | PyVal.vList xs => xs
                 | _ => ([] : List PyVal)).map (fun iss =>
                 match iss with
                 | PyVal.vDict kvs => keyIssueChunk fetchFile projectPath gitlabBase sourceBranch kvs
                 | _ => ""))
            ++ "</td></tr>\n")

/-- The markdown appended by one iteration of
`for key, value in review_payload.items()` in
`ReviewCommand._convert_to_markdown`. -/
def chunkFor (fetchFile : String → Option String)
    (projectPath gitlabBase sourceBranch : String)
    (key : String) (value : PyVal) : String :=
  if isEmptyish value && pyLower key ≠ "key_issues_to_review" then ""
  else
    let keyNice := pyCapitalize (replaceUnderscore key)
    let emoji := emojiFor keyNice
    if strContainsSub (pyLower keyNice) "estimated effort to review" then
      effortChunk emoji value
    else if strContainsSub (pyLower keyNice) "relevant tests" then
      relevantTestsChunk emoji value
    else if strContainsSub (pyLower keyNice) "issue compliance check" then
      issueComplianceChunk emoji value
    else if strContainsSub (pyLower keyNice) "security concerns" then
      securityChunk emoji value
    else if strContainsSub (pyLower keyNice) "key issues to review" then
      keyIssuesChunk fetchFile projectPath gitlabBase sourceBranch emoji value
    else if strContainsSub (pyLower keyNice) "prompt suggestion for agent" then
      promptSuggestionChunk emoji value
    else
      "<tr><td>" ++ emoji ++ "&nbsp;<strong>" ++ keyNice ++ "</strong>: "
        ++ pyStrVal value ++ "</td></tr>\n"

/-- Embedding of `ReviewCommand._convert_to_markdown` over the dumped review payload
(its `items()` in insertion order), with the GitLab collaborators
abstracted: `fetchFile` for snippet fetches and `projectPath` for
`project.path_with_namespace` (empty when the project fetch failed). -/
def convertToMarkdown (fetchFile : String → Option String)
    (projectPath gitlabBase sourceBranch : String)
    (payload : List (String × PyVal)) : String :=
  "## MR Reviewer Guide 🔍\n\n"
    ++ "Here are some key observations to aid the review process:\n\n"
    ++ "<table>\n"
    ++ String.join (payload.map (fun kv =>
         chunkFor fetchFile projectPath gitlabBase sourceBranch kv.1 kv.2))
    ++ "</table>\n"

/-! ## Helper lemmas -/

lemma digitChar10_isDigit (n : Nat) : (digitChar10 n).isDigit := by
  unfold digitChar10
  split <;> decide

lemma digitVal_digitChar10 (n : Nat) (h : n < 10) : digitVal (digitChar10 n) = n := by
  interval_cases n <;> decide

lemma natReprRec_ne_nil : ∀ (fuel n : Nat), n < fuel → natReprRec fuel n ≠ [] := by
  intro fuel
  induction fuel with
  | zero => intro n h; omega
  | succ fuel ih =>
    intro n _
    rw [natReprRec]
    split <;> simp

lemma natReprChars_ne_nil (n : Nat) : natReprChars n ≠ [] :=
  natReprRec_ne_nil (n + 1) n (by omega)

lemma natReprRec_all_digit : ∀ (fuel n : Nat), n < fuel →
    ∀ c ∈ natReprRec fuel n, c.isDigit := by
  intro fuel
  induction fuel with
  | zero => intro n h; omega
  | succ fuel ih =>
    intro n hn
    rw [natReprRec]
    split
    · intro c hc
      simp only [List.mem_singleton] at hc
      subst hc
      exact digitChar10_isDigit n
    · next h =>
      intro c hc
      rcases List.mem_append.mp hc with h1 | h2
      · exact ih (n / 10) (by
          have : n / 10 < n := Nat.div_lt_self (by omega) (by omega)
          omega) c h1
      · simp only [List.mem_singleton] at h2
        subst h2
        exact digitChar10_isDigit (n % 10)

lemma natReprChars_all_digit (n : Nat) : ∀ c ∈ natReprChars n, c.isDigit :=
  natReprRec_all_digit (n + 1) n (by omega)

lemma natOfDigits_append_one (xs : List Char) (c : Char) :
    natOfDigits (xs ++ [c]) = 10 * natOfDigits xs + digitVal c := by
  simp [natOfDigits, List.foldl_append]

lemma natOfDigits_natReprRec : ∀ (fuel n : Nat), n < fuel →
    natOfDigits (natReprRec fuel n) = n := by
  intro fuel
  induction fuel with
  | zero => intro n h; omega
  | succ fuel ih =>
    intro n hn
    rw [natReprRec]
    split
    · next h =>
      simp [natOfDigits, digitVal_digitChar10 n h]
    · next h =>
      rw [natOfDigits_append_one,
        ih (n / 10) (by
          have : n / 10 < n := Nat.div_lt_self (by omega) (by omega)
          omega),
        digitVal_digitChar10 (n % 10) (Nat.mod_lt _ (by omega))]
      omega

lemma natOfDigits_natReprChars (n : Nat) : natOfDigits (natReprChars n) = n :=
  natOfDigits_natReprRec (n + 1) n (by omega)

lemma not_ws_of_isDigit (c : Char) (h : c.isDigit) : isPyWs c = false := by
  unfold isPyWs
  have h1 : c ≠ ' ' := by intro hc; subst hc; revert h; decide
  have h2 : c ≠ '\t' := by intro hc; subst hc; revert h; decide
  have h3 : c ≠ '\n' := by intro hc; subst hc; revert h; decide
  have h4 : c ≠ Char.ofNat 11 := by intro hc; subst hc; revert h; decide
  have h5 : c ≠ Char.ofNat 12 := by intro hc; subst hc; revert h; decide
  have h6 : c ≠ '\r' := by intro hc; subst hc; revert h; decide
  simp [h1, h2, h3, h4, h5, h6]

lemma ne_comma_of_isDigit (c : Char) (h : c.isDigit) : c ≠ ',' := by
  intro hc; subst hc; revert h; decide

lemma ne_minus_of_isDigit (c : Char) (h : c.isDigit) : c ≠ '-' := by
  intro hc; subst hc; revert h; decide

lemma ne_plus_of_isDigit (c : Char) (h : c.isDigit) : c ≠ '+' := by
  intro hc; subst hc; revert h; decide

lemma intReprChars_nonneg (v : Int) (h : 0 ≤ v) :
    intReprChars v = natReprChars v.toNat := by
  unfold intReprChars
  rw [if_neg (by omega)]

lemma intReprChars_neg (v : Int) (h : v < 0) :
    intReprChars v = '-' :: natReprChars v.natAbs := by
  unfold intReprChars
  rw [if_pos h]

lemma parseIntChars_digits (ds : List Char) (hne : ds ≠ [])
    (hds : ∀ c ∈ ds, c.isDigit) : parseIntChars ds = some (natOfDigits ds : Int) := by
  match ds, hne with
  | c :: tl, _ =>
    have hc : c.isDigit := hds c (by simp)
    simp only [parseIntChars, if_neg (ne_minus_of_isDigit c hc),
      if_neg (ne_plus_of_isDigit c hc)]
    rw [if_pos]
    exact List.all_eq_true.mpr (fun x hx => hds x hx)

lemma parseIntChars_intReprChars (v : Int) :
    parseIntChars (intReprChars v) = some v := by
  by_cases h : v < 0
  · rw [intReprChars_neg v h]
    have hcond : (!(natReprChars v.natAbs).isEmpty
        && (natReprChars v.natAbs).all Char.isDigit) = true := by
      refine (Bool.and_eq_true _ _).mpr ⟨?_, ?_⟩
      · cases hnn : natReprChars v.natAbs with
        | nil => exact absurd hnn (natReprChars_ne_nil _)
        | cons a l => rfl
      · exact List.all_eq_true.mpr (fun x hx => natReprChars_all_digit _ x hx)
    simp only [parseIntChars, if_pos rfl, if_pos hcond]
    rw [natOfDigits_natReprChars]
    have hv : -(v.natAbs : Int) = v := by omega
    rw [hv]
    simp
  · rw [intReprChars_nonneg v (by omega)]
    rw [parseIntChars_digits _ (natReprChars_ne_nil _) (natReprChars_all_digit _)]
    rw [natOfDigits_natReprChars]
    have hv : (v.toNat : Int) = v := by omega
    rw [hv]

lemma dropWhile_eq_self_of_not {p : Char → Bool} (l : List Char)
    (h : ∀ c ∈ l, p c = false) : l.dropWhile p = l := by
  cases l with
  | nil => rfl
  | cons c cs =>
    rw [List.dropWhile_cons, if_neg]
    simp [h c (by simp)]

lemma stripChars_eq_self (l : List Char) (h : ∀ c ∈ l, isPyWs c = false) :
    stripChars l = l := by
  unfold stripChars
  rw [dropWhile_eq_self_of_not l h,
    dropWhile_eq_self_of_not l.reverse (fun c hc => h c (List.mem_reverse.mp hc)),
    List.reverse_reverse]

lemma takeWhile_eq_self_of_all {p : Char → Bool} : ∀ (l : List Char),
    (∀ c ∈ l, p c = true) → l.takeWhile p = l := by
  intro l
  induction l with
  | nil => intro _; rfl
  | cons c cs ih =>
    intro h
    rw [List.takeWhile_cons, if_pos (h c (by simp))]
    rw [ih (fun x hx => h x (by simp [hx]))]

lemma intReprChars_mem (v : Int) (c : Char) (hc : c ∈ intReprChars v) :
    c = '-' ∨ c.isDigit := by
  unfold intReprChars at hc
  split at hc
  · rcases List.mem_cons.mp hc with h1 | h2
    · exact Or.inl h1
    · exact Or.inr (natReprChars_all_digit _ c h2)
  · exact Or.inr (natReprChars_all_digit _ c hc)

lemma intReprChars_no_ws (v : Int) : ∀ c ∈ intReprChars v, isPyWs c = false := by
  intro c hc
  rcases intReprChars_mem v c hc with h1 | h2
  · subst h1; decide
  · exact not_ws_of_isDigit c h2

lemma intReprChars_no_comma (v : Int) : ∀ c ∈ intReprChars v, notCommaB c = true := by
  intro c hc
  rcases intReprChars_mem v c hc with h1 | h2
  · subst h1; decide
  · simp [notCommaB, ne_comma_of_isDigit c h2]

lemma counterPad_none : counterPad none = "      " := by decide

lemma counterPad_some (n : Nat) : counterPad (some n) = rjustStr 6 (natRepr n) := rfl

lemma fmtDiffGo_eq_annRun : ∀ (lines : List String) (o n : Option Nat),
    fmtDiffGo lines o n = annRun ⟨o, n⟩ lines := by
  intro lines
  induction lines with
  | nil => intro o n; rfl
  | cons line rest ih =>
    intro o n
    by_cases h1 : pyStartsWith line "@@"
    · cases hp : parseHunkHeader line with
      | none => simp [fmtDiffGo, annRun, annStep, h1, hp, ih]
      | some ab => simp [fmtDiffGo, annRun, annStep, h1, hp, ih]
    · by_cases h2 : pyStartsWith line "+" && !pyStartsWith line "+++"
      · cases n with
        | none =>
          simp [fmtDiffGo, annRun, annStep, h1, h2, ih, counterPad_none, incCounter]
        | some k =>
          simp [fmtDiffGo, annRun, annStep, h1, h2, ih, counterPad_some, incCounter]
      · by_cases h3 : pyStartsWith line "-" && !pyStartsWith line "---"
        · cases o with
          | none =>
            simp [fmtDiffGo, annRun, annStep, h1, h2, h3, ih, counterPad_none, incCounter]
          | some k =>
            simp [fmtDiffGo, annRun, annStep, h1, h2, h3, ih, counterPad_some, incCounter]
        · by_cases h4 : pyStartsWith line " " || pyStartsWith line "\t"
          · simp [fmtDiffGo, annRun, annStep, h1, h2, h3, h4, ih]
          · simp [fmtDiffGo, annRun, annStep, h1, h2, h3, h4, ih]

/-- C2: for every diff text, the source's line-number annotation agrees
with the claim's automaton — counters seeded from parseable hunk headers;
`+`-not-`+++` lines prefixed with the width-6 right-justified new counter
(which then increments); `-`-not-`---` lines analogously with the old
counter; space/tab lines increment both counters and pass through
unprefixed; other lines pass through unchanged; `+`/`-` lines with
unseeded counters get a six-space prefix — and, concretely, the spec's
`@@ -10,3 +10,4 @@` example is numbered as expected. -/
theorem C2_diff_line_numbering :
    (∀ s, formatDiffWithLineNumbers s = annotateSpec s) ∧
    formatDiffWithLineNumbers
        "--- a/f\n+++ b/f\n@@ -10,3 +10,4 @@\n context\n+added\n-removed"
      = "--- a/f\n+++ b/f\n@@ -10,3 +10,4 @@\n context\n    11 +added\n    11 -removed" := by
  constructor
  · intro s
    unfold formatDiffWithLineNumbers annotateSpec
    rw [fmtDiffGo_eq_annRun]
  · decide

/-- C1: the claim that a flag token followed by another `--` token is
recorded as boolean true with the next token pushed back and re-examined
(no tokens lost) fails on the code: in
`parse("describe --enable_diagram --enable_files")` the statement
`it = iter([nxt] + list(it))` exhausts the iterator that drives the `for`
loop, so parsing stops and `--enable_files` is dropped — the result is
`{"enable_diagram": True}` alone, not both flags. -/
theorem C1_flag_pushback_loses_tokens :
    parseBotCommand ["describe", "--enable_diagram", "--enable_files"] =
      .ok ("describe", [("enable_diagram", FlagVal.bool true)], []) ∧
    parseBotCommand ["describe", "--enable_diagram", "--enable_files"] ≠
      .ok ("describe",
        [("enable_diagram", FlagVal.bool true), ("enable_files", FlagVal.bool true)],
        []) := by
  constructor
  · rfl
  · intro h
    have h1 : parseBotCommand ["describe", "--enable_diagram", "--enable_files"] =
        .ok ("describe", [("enable_diagram", FlagVal.bool true)], []) := rfl
    rw [h1] at h
    simp at h

/-- C5: the claim that `can_review` is false for a file marked
too-large/collapsed fails on the code: the diff entries are plain
dictionaries, so `getattr(diff, "too_large", False)` always returns the
default `False` and the marks are never consulted — a marked entry with
non-empty diff text still gets `can_review = True` and an annotated diff
rather than the "Diff unavailable" line. -/
theorem C5_can_review_ignores_marks :
    canReview { diff := some "+x\n", old_path := some "a.py", new_path := some "a.py",
                new_file := false, deleted_file := false, renamed_file := false,
                generated_file := false, too_large := true, collapsed := true } = true ∧
    "Diff unavailable" ∉
      entryBlock { diff := some "+x\n", old_path := some "a.py", new_path := some "a.py",
                   new_file := false, deleted_file := false, renamed_file := false,
                   generated_file := false, too_large := true, collapsed := true } := by
  decide

lemma dedupFirstSeen_not_mem_seen : ∀ (l seen : List Nat) (x : Nat),
    x ∈ dedupFirstSeen seen l → x ∉ seen := by
  intro l
  induction l with
  | nil => intro seen x h; simp [dedupFirstSeen] at h
  | cons y ys ih =>
    intro seen x h
    unfold dedupFirstSeen at h
    split at h
    · exact ih seen x h
    · next hy =>
      rcases List.mem_cons.mp h with rfl | h2
      · exact hy
      · intro hx
        exact ih (y :: seen) x h2 (List.mem_cons_of_mem y hx)

lemma dedupFirstSeen_nodup : ∀ (l seen : List Nat), (dedupFirstSeen seen l).Nodup := by
  intro l
  induction l with
  | nil => intro seen; simp [dedupFirstSeen]
  | cons y ys ih =>
    intro seen
    unfold dedupFirstSeen
    split
    · exact ih seen
    · refine List.nodup_cons.mpr ⟨?_, ih (y :: seen)⟩
      intro hmem
      exact dedupFirstSeen_not_mem_seen ys (y :: seen) y hmem (by simp)

/-- C6: the issue-reference extractor matches `#<digits>` with a negative
lookbehind for word characters (`abc#12` does not match, `(#12)` does),
scans title then description, and returns the numbers de-duplicated in
first-seen order: the spec's example yields `[12, 7]`, and the result
never contains duplicates. -/
theorem C6_issue_extraction :
    extractIssueIids (some "Fixes #12 and also #7, see #12 again") none = [12, 7] ∧
    extractIssueIids (some "abc#12") none = [] ∧
    extractIssueIids (some "(#12)") none = [12] ∧
    extractIssueIids (some "#3") (some "#2") = [3, 2] ∧
    ∀ t d, (extractIssueIids t d).Nodup := by
  refine ⟨by decide, by decide, by decide, by decide, ?_⟩
  intro t d
  exact dedupFirstSeen_nodup _ []

/-- C7 counterexample: the claim that every exception during the MR fetch
is caught fails — the source guards the MR fetch only with
`except gitlab.GitlabError`, so an exception of any other class (here a
transport error) propagates instead of producing the empty context. -/
theorem C7_nongitlab_error_propagates :
    getherGitlabData (.error (Exc.other "connection aborted")) (.ok none)
        (fun _ => .ok { title := none, labels := none, description := none }) 4000 =
      .error (Exc.other "connection aborted") ∧
    getherGitlabData (.error (Exc.other "connection aborted")) (.ok none)
        (fun _ => .ok { title := none, labels := none, description := none }) 4000 ≠
      .ok emptyGathered := by
  constructor
  · rfl
  · intro h
    have h1 : getherGitlabData (.error (Exc.other "connection aborted")) (.ok none)
        (fun _ => .ok { title := none, labels := none, description := none }) 4000 =
        .error (Exc.other "connection aborted") := rfl
    rw [h1] at h
    exact Except.noConfusion h

/-- C7 (amended): every `gitlab.GitlabError` raised while fetching the MR
is caught and yields the empty-but-valid context (empty title, branch and
diff, no related issues), and once the MR is fetched, every exception
while fetching the diff list is caught and yields an otherwise-valid
context with empty diff text; only a non-`GitlabError` during the MR fetch
propagates. -/
theorem C7_fetch_errors_degrade :
    (∀ msg dl fi budget,
        getherGitlabData (.error (.gitlab msg)) dl fi budget = .ok emptyGathered) ∧
    (∀ mr e fi budget,
        getherGitlabData (.ok mr) (.error e) fi budget =
          .ok { title := pyOptStr mr.title, branch := mr.source_branch, diff := "",
                description := mr.description,
                related_issues :=
                  resolveIssues fi (extractIssueIids mr.title mr.description) }) := by
  constructor
  · intro msg dl fi budget; rfl
  · intro mr e fi budget; rfl

/-- C8: the claim that dispatching `help` returns the fixed usage string
fails on the code: `CommandAgent.run` passes four positional arguments
(`project_id, mr_iid, flags, args`) but `HelpCommand.run` declares only
two (`flags, args`), so Python raises `TypeError` at the call — the usage
string is never returned (and the LLM is indeed never invoked). -/
theorem C8_help_dispatch_type_error :
    ∀ (frontendUrl : String) (otherHandler : String → Except PyErr String),
      commandAgentRun ["help"] frontendUrl otherHandler = .error PyErr.typeError := by
  intro u oh
  rfl

lemma gatherBlocks_eq (budget : Nat) : ∀ entries : List DiffEntry,
    gatherBlocks budget entries =
      (((entries.filter (fun d => decide (tokenCounter (diffTextOf d) ≤ budget))).map
          entryBlock).flatten,
       (entries.filter (fun d => decide (budget < tokenCounter (diffTextOf d)))).map
         ignoredNameOf) := by
  intro entries
  induction entries with
  | nil => rfl
  | cons d rest ih =>
    by_cases h : budget < tokenCounter (diffTextOf d)
    · have h' : ¬ tokenCounter (diffTextOf d) ≤ budget := by omega
      simp [gatherBlocks, ih, List.filter_cons, h, h']
    · have h' : tokenCounter (diffTextOf d) ≤ budget := by omega
      simp [gatherBlocks, ih, List.filter_cons, h, h']

/-- C3: in the assembled diff context, the per-file blocks are exactly the
blocks of the files whose diff's token estimate (`len(text) // 4`) is
within the per-file budget, in original order, and the trailing note lists
exactly the names of the over-budget files (and is absent when there are
none) — so an over-budget file's diff appears nowhere in the body while
its path appears in the skipped-files note. -/
theorem C3_token_budget_skip : ∀ (title description : String) (budget : Nat)
    (entries : List DiffEntry),
    getherGitlabDiffBody title description budget entries =
      String.intercalate "\n"
        (["Merge Request Title: " ++ title,
          "Merge Request Description: " ++ description,
          ""]
         ++ ((entries.filter (fun d => decide (tokenCounter (diffTextOf d) ≤ budget))).map
              entryBlock).flatten
         ++ (if ((entries.filter (fun d =>
                decide (budget < tokenCounter (diffTextOf d)))).map ignoredNameOf).isEmpty
             then []
             else ["Note: The following files were skipped due to size constraints: "
                   ++ String.intercalate ", "
                       ((entries.filter (fun d =>
                          decide (budget < tokenCounter (diffTextOf d)))).map
                         ignoredNameOf)])) := by
  intro title description budget entries
  unfold getherGitlabDiffBody
  rw [gatherBlocks_eq]

lemma validateDump_ok_keys : ∀ (fields : List (String × (Option FieldType × FieldDefault)))
    (payload : List (String × PyVal)) (out : List (String × PyVal)),
    validateDump fields payload = .ok out → out.map Prod.fst = fields.map Prod.fst := by
  intro fields
  induction fields with
  | nil =>
    intro payload out h
    simp only [validateDump] at h
    cases h
    rfl
  | cons kv rest ih =>
    intro payload out h
    simp only [validateDump] at h
    cases hfind : payload.find? (fun e => e.1 = kv.1) with
    | some e =>
      rw [hfind] at h
      cases hrest : validateDump rest payload with
      | error e2 => rw [hrest] at h; exact absurd h (by simp)
      | ok bs =>
        rw [hrest] at h
        simp only at h
        cases h
        simp [ih payload bs hrest]
    | none =>
      rw [hfind] at h
      cases hdef : kv.2.2 with
      | dRequired => rw [hdef] at h; exact absurd h (by simp)
      | dNone =>
        rw [hdef] at h
        cases hrest : validateDump rest payload with
        | error e2 => rw [hrest] at h; exact absurd h (by simp)
        | ok bs =>
          rw [hrest] at h
          simp only at h
          cases h
          simp [ih payload bs hrest]

lemma validateDump_error_of : ∀ (fields : List (String × (Option FieldType × FieldDefault)))
    (payload : List (String × PyVal)) (k : String),
    (∀ kv ∈ fields, kv.2.2 = FieldDefault.dRequired → kv.1 = k) →
    (∃ ty, (k, (ty, FieldDefault.dRequired)) ∈ fields) →
    payload.find? (fun e => e.1 = k) = none →
    validateDump fields payload = .error k := by
  intro fields
  induction fields with
  | nil =>
    intro payload k _ hmem _
    obtain ⟨ty, hty⟩ := hmem
    simp at hty
  | cons kv rest ih =>
    intro payload k hreq hmem hfind
    simp only [validateDump]
    cases hfind2 : payload.find? (fun e => e.1 = kv.1) with
    | some e =>
      have hkv : kv.1 ≠ k := by
        intro heq
        rw [heq] at hfind2
        rw [hfind] at hfind2
        exact Option.noConfusion hfind2
      have hmem' : ∃ ty, (k, (ty, FieldDefault.dRequired)) ∈ rest := by
        obtain ⟨ty, hty⟩ := hmem
        rcases List.mem_cons.mp hty with heq | hrest
        · exact absurd (congrArg Prod.fst heq.symm) hkv
        · exact ⟨ty, hrest⟩
      rw [ih payload k (fun e he hr => hreq e (List.mem_cons_of_mem kv he) hr) hmem' hfind]
    | none =>
      cases hdef : kv.2.2 with
      | dRequired =>
        exact congrArg Except.error (hreq kv (by simp) hdef)
      | dNone =>
        have hmem' : ∃ ty, (k, (ty, FieldDefault.dRequired)) ∈ rest := by
          obtain ⟨ty, hty⟩ := hmem
          rcases List.mem_cons.mp hty with heq | hrest
          · rw [← heq] at hdef
            exact absurd hdef (by simp)
          · exact ⟨ty, hrest⟩
        rw [ih payload k (fun e he hr => hreq e (List.mem_cons_of_mem kv he) hr) hmem' hfind]

/-- C4 counterexample: the claim that `key_issues_to_review` "defaults to
an empty list if the LLM supplies none" fails on the code — the field is
declared with the `Ellipsis` default, i.e. required, so validating an LLM
payload that lacks the key raises a validation error instead of producing
an empty list (shown here on the schema built with all optional flags
false). -/
theorem C4_required_field_has_no_default :
    validateDump (createdFields false false false false false false) [] =
      .error "key_issues_to_review" ∧
    validateDump (createdFields false false false false false false) [] ≠
      .ok [("key_issues_to_review", PyVal.vList [])] := by
  constructor
  · rfl
  · intro h
    have h1 : validateDump (createdFields false false false false false false) [] =
        .error "key_issues_to_review" := rfl
    rw [h1] at h
    exact Except.noConfusion h

/-- C4 (amended): every optional output field is entirely absent from the
built schema — and hence from any validated output, whose keys are proved
to be exactly the schema's — when its controlling boolean flag is false
(`issue_compliance_check` controlled by the presence of related issues,
`estimated_effort_to_review`, `score`, `relevant_tests`,
`security_concerns`, `prompt_suggestion_for_agent` by their `require_*`
flags), and present when the flag is true; `key_issues_to_review` is
always included regardless of flags, but it is declared required
(Ellipsis default), so a payload missing it fails validation rather than
defaulting to an empty list. -/
theorem C4_dynamic_schema_omission :
    ∀ ri re rs rt rsec rp : Bool,
      ("key_issues_to_review" ∈ (createdFields ri re rs rt rsec rp).map Prod.fst) ∧
      (ri = false →
        "issue_compliance_check" ∉ (createdFields ri re rs rt rsec rp).map Prod.fst) ∧
      (re = false →
        "estimated_effort_to_review" ∉ (createdFields ri re rs rt rsec rp).map Prod.fst) ∧
      (rs = false →
        "score" ∉ (createdFields ri re rs rt rsec rp).map Prod.fst) ∧
      (rt = false →
        "relevant_tests" ∉ (createdFields ri re rs rt rsec rp).map Prod.fst) ∧
      (rsec = false →
        "security_concerns" ∉ (createdFields ri re rs rt rsec rp).map Prod.fst) ∧
      (rp = false →
        "prompt_suggestion_for_agent" ∉ (createdFields ri re rs rt rsec rp).map Prod.fst) ∧
      (ri = true →
        "issue_compliance_check" ∈ (createdFields ri re rs rt rsec rp).map Prod.fst) ∧
      (re = true →
        "estimated_effort_to_review" ∈ (createdFields ri re rs rt rsec rp).map Prod.fst) ∧
      (rs = true →
        "score" ∈ (createdFields ri re rs rt rsec rp).map Prod.fst) ∧
      (rt = true →
        "relevant_tests" ∈ (createdFields ri re rs rt rsec rp).map Prod.fst) ∧
      (rsec = true →
        "security_concerns" ∈ (createdFields ri re rs rt rsec rp).map Prod.fst) ∧
      (rp = true →
        "prompt_suggestion_for_agent" ∈ (createdFields ri re rs rt rsec rp).map Prod.fst) ∧
      (∀ payload out, validateDump (createdFields ri re rs rt rsec rp) payload = .ok out →
        out.map Prod.fst = (createdFields ri re rs rt rsec rp).map Prod.fst) ∧
      (∀ payload, payload.find? (fun e => e.1 = "key_issues_to_review") = none →
        validateDump (createdFields ri re rs rt rsec rp) payload =
          .error "key_issues_to_review") := by
  intro ri re rs rt rsec rp
  refine ⟨?_, ?_, ?_, ?_, ?_, ?_, ?_, ?_, ?_, ?_, ?_, ?_, ?_, ?_, ?_⟩
  · cases ri <;> cases re <;> cases rs <;> cases rt <;> cases rsec <;> cases rp <;> decide
  · intro h; subst h
    cases re <;> cases rs <;> cases rt <;> cases rsec <;> cases rp <;> decide
  · intro h; subst h
    cases ri <;> cases rs <;> cases rt <;> cases rsec <;> cases rp <;> decide
  · intro h; subst h
    cases ri <;> cases re <;> cases rt <;> cases rsec <;> cases rp <;> decide
  · intro h; subst h
    cases ri <;> cases re <;> cases rs <;> cases rsec <;> cases rp <;> decide
  · intro h; subst h
    cases ri <;> cases re <;> cases rs <;> cases rt <;> cases rp <;> decide
  · intro h; subst h
    cases ri <;> cases re <;> cases rs <;> cases rt <;> cases rsec <;> decide
  · intro h; subst h
    cases re <;> cases rs <;> cases rt <;> cases rsec <;> cases rp <;> decide
  · intro h; subst h
    cases ri <;> cases rs <;> cases rt <;> cases rsec <;> cases rp <;> decide
  · intro h; subst h
    cases ri <;> cases re <;> cases rt <;> cases rsec <;> cases rp <;> decide
  · intro h; subst h
    cases ri <;> cases re <;> cases rs <;> cases rsec <;> cases rp <;> decide
  · intro h; subst h
    cases ri <;> cases re <;> cases rs <;> cases rt <;> cases rp <;> decide
  · intro h; subst h
    cases ri <;> cases re <;> cases rs <;> cases rt <;> cases rsec <;> decide
  · exact fun payload out h => validateDump_ok_keys _ payload out h
  · intro payload hfind
    refine validateDump_error_of _ payload _ ?_ ⟨some FieldType.listKeyIssues, ?_⟩ hfind
    · cases ri <;> cases re <;> cases rs <;> cases rt <;> cases rsec <;> cases rp <;> decide
    · cases ri <;> cases re <;> cases rs <;> cases rt <;> cases rsec <;> cases rp <;> decide

/-- Witness for C4: with every controlling flag false, each optional field
is absent from the schema while `key_issues_to_review` remains, and the
empty payload fails validation on that required field; with every flag
true, each optional field is present. -/
theorem C4_dynamic_schema_omission_witness :
    ("key_issues_to_review" ∈
      (createdFields false false false false false false).map Prod.fst) ∧
    ("issue_compliance_check" ∉
      (createdFields false false false false false false).map Prod.fst) ∧
    ("estimated_effort_to_review" ∉
      (createdFields false false false false false false).map Prod.fst) ∧
    ("score" ∉ (createdFields false false false false false false).map Prod.fst) ∧
    ("relevant_tests" ∉
      (createdFields false false false false false false).map Prod.fst) ∧
    ("security_concerns" ∉
      (createdFields false false false false false false).map Prod.fst) ∧
    ("prompt_suggestion_for_agent" ∉
      (createdFields false false false false false false).map Prod.fst) ∧
    ("issue_compliance_check" ∈
      (createdFields true true true true true true).map Prod.fst) ∧
    ("estimated_effort_to_review" ∈
      (createdFields true true true true true true).map Prod.fst) ∧
    ("score" ∈ (createdFields true true true true true true).map Prod.fst) ∧
    ("relevant_tests" ∈ (createdFields true true true true true true).map Prod.fst) ∧
    ("security_concerns" ∈ (createdFields true true true true true true).map Prod.fst) ∧
    ("prompt_suggestion_for_agent" ∈
      (createdFields true true true true true true).map Prod.fst) ∧
    validateDump (createdFields false false false false false false) [] =
      .error "key_issues_to_review" :=
  ⟨(C4_dynamic_schema_omission false false false false false false).1,
   (C4_dynamic_schema_omission false false false false false false).2.1 rfl,
   (C4_dynamic_schema_omission false false false false false false).2.2.1 rfl,
   (C4_dynamic_schema_omission false false false false false false).2.2.2.1 rfl,
   (C4_dynamic_schema_omission false false false false false false).2.2.2.2.1 rfl,
   (C4_dynamic_schema_omission false false false false false false).2.2.2.2.2.1 rfl,
   (C4_dynamic_schema_omission false false false false false false).2.2.2.2.2.2.1 rfl,
   (C4_dynamic_schema_omission true true true true true true).2.2.2.2.2.2.2.1 rfl,
   (C4_dynamic_schema_omission true true true true true true).2.2.2.2.2.2.2.2.1 rfl,
   (C4_dynamic_schema_omission true true true true true true).2.2.2.2.2.2.2.2.2.1 rfl,
   (C4_dynamic_schema_omission true true true true true true).2.2.2.2.2.2.2.2.2.2.1 rfl,
   (C4_dynamic_schema_omission true true true true true true).2.2.2.2.2.2.2.2.2.2.2.1 rfl,
   (C4_dynamic_schema_omission true true true true true true).2.2.2.2.2.2.2.2.2.2.2.2.1 rfl,
   (C4_dynamic_schema_omission false false false false false false).2.2.2.2.2.2.2.2.2.2.2.2.2.2
     [] rfl⟩

lemma data_mk (l : List Char) : (String.mk l).data = l := rfl

lemma pyStrVal_vInt (v : Int) : pyStrVal (PyVal.vInt v) = String.mk (intReprChars v) := by
  simp [pyStrVal, pyReprVal]

lemma effortChunk_vInt (emoji : String) (v : Int) :
    effortChunk emoji (PyVal.vInt v) =
      "<tr><td>" ++ emoji ++ "&nbsp;<strong>Estimated effort to review</strong>: "
        ++ String.mk (intReprChars (max 1 (min 5 v))) ++ " "
        ++ (strRepeat "🔵" (max 1 (min 5 v)).toNat
            ++ strRepeat "⚪" (5 - max 1 (min 5 v)).toNat) ++ "</td></tr>\n" := by
  simp only [effortChunk, pyStrVal_vInt, pyStrip, data_mk]
  rw [stripChars_eq_self _ (intReprChars_no_ws v)]
  rw [takeWhile_eq_self_of_all _ (intReprChars_no_comma v)]
  rw [stripChars_eq_self _ (intReprChars_no_ws v)]
  rw [parseIntChars_intReprChars v]

/-- C9: for every integer-valued `estimated_effort_to_review` field the
renderer clamps the value into `[1, 5]` via `max(1, min(5, v))` and
renders a five-segment filled/empty bar; in particular `7` renders as
`5 🔵🔵🔵🔵🔵` and `0` renders as `1 🔵⚪⚪⚪⚪`. -/
theorem C9_effort_clamp :
    (∀ (fetchFile : String → Option String) (pp gb sb : String) (v : Int),
        chunkFor fetchFile pp gb sb "estimated_effort_to_review" (PyVal.vInt v) =
          "<tr><td>⏱️&nbsp;<strong>Estimated effort to review</strong>: "
            ++ String.mk (intReprChars (max 1 (min 5 v))) ++ " "
            ++ (strRepeat "🔵" (max 1 (min 5 v)).toNat
                ++ strRepeat "⚪" (5 - max 1 (min 5 v)).toNat) ++ "</td></tr>\n"
          ∧ 1 ≤ max 1 (min 5 v) ∧ max 1 (min 5 v) ≤ 5) ∧
    chunkFor (fun _ => none) "" "" "" "estimated_effort_to_review" (PyVal.vInt 7) =
      "<tr><td>⏱️&nbsp;<strong>Estimated effort to review</strong>: 5 🔵🔵🔵🔵🔵</td></tr>\n" ∧
    chunkFor (fun _ => none) "" "" "" "estimated_effort_to_review" (PyVal.vInt 0) =
      "<tr><td>⏱️&nbsp;<strong>Estimated effort to review</strong>: 1 🔵⚪⚪⚪⚪</td></tr>\n" := by
  have hred : ∀ (f : String → Option String) (pp gb sb : String) (v : Int),
      chunkFor f pp gb sb "estimated_effort_to_review" (PyVal.vInt v) =
        effortChunk "⏱️" (PyVal.vInt v) := fun _ _ _ _ _ => rfl
  refine ⟨?_, ?_, ?_⟩
  · intro f pp gb sb v
    refine ⟨?_, by omega, by omega⟩
    rw [hred, effortChunk_vInt]
    rfl
  · rw [hred, effortChunk_vInt]
    decide
  · rw [hred, effortChunk_vInt]
    decide

lemma pyTruthy_eq_false_of_isEmptyish (v : PyVal) (h : isEmptyish v = true) :
    pyTruthy v = false := by
  cases v <;> simp_all [isEmptyish, pyTruthy]

/-- C10: in the rendered review report, every field whose value is `None`,
`""`, `{}` or `[]` produces no row at all — except `key_issues_to_review`,
which even when empty, or when it is the case-insensitive string `"no"`,
still produces the row `No major issues detected`. -/
theorem C10_empty_field_rows :
    (∀ (f : String → Option String) (pp gb sb key : String) (value : PyVal),
        isEmptyish value = true → pyLower key ≠ "key_issues_to_review" →
        chunkFor f pp gb sb key value = "") ∧
    (∀ (f : String → Option String) (pp gb sb : String) (value : PyVal),
        isEmptyish value = true →
        chunkFor f pp gb sb "key_issues_to_review" value =
          "<tr><td>⚡&nbsp;<strong>No major issues detected</strong></td></tr>\n") ∧
    (∀ (f : String → Option String) (pp gb sb s : String),
        isValueNo (PyVal.vStr s) = true →
        chunkFor f pp gb sb "key_issues_to_review" (PyVal.vStr s) =
          "<tr><td>⚡&nbsp;<strong>No major issues detected</strong></td></tr>\n") := by
  have hfalse : decide (pyLower "key_issues_to_review" ≠ "key_issues_to_review") = false := by
    decide
  have hb1 : strContainsSub (pyLower (pyCapitalize (replaceUnderscore "key_issues_to_review")))
      "estimated effort to review" = false := by decide
  have hb2 : strContainsSub (pyLower (pyCapitalize (replaceUnderscore "key_issues_to_review")))
      "relevant tests" = false := by decide
  have hb3 : strContainsSub (pyLower (pyCapitalize (replaceUnderscore "key_issues_to_review")))
      "issue compliance check" = false := by decide
  have hb4 : strContainsSub (pyLower (pyCapitalize (replaceUnderscore "key_issues_to_review")))
      "security concerns" = false := by decide
  have hb5 : strContainsSub (pyLower (pyCapitalize (replaceUnderscore "key_issues_to_review")))
      "key issues to review" = true := by decide
  have hem : emojiFor (pyCapitalize (replaceUnderscore "key_issues_to_review")) = "⚡" := by
    decide
  refine ⟨?_, ?_, ?_⟩
  · intro f pp gb sb key value h1 h2
    simp [chunkFor, h1, h2]
  · intro f pp gb sb value h
    have hT := pyTruthy_eq_false_of_isEmptyish value h
    simp only [chunkFor, hfalse, Bool.and_false, Bool.false_eq_true, if_false,
      hb1, hb2, hb3, hb4, hb5, hem, if_true, keyIssuesChunk, hT, Bool.not_false,
      Bool.or_true]
    decide
  · intro f pp gb sb s hNo
    simp only [chunkFor, hfalse, Bool.and_false, Bool.false_eq_true, if_false,
      hb1, hb2, hb3, hb4, hb5, hem, if_true, keyIssuesChunk, hNo, Bool.true_or]
    decide

/-- Witness for C10: a `None`-valued `score` field renders no row, an
empty `key_issues_to_review` list and the string `"No"` both render the
`No major issues detected` row. -/
theorem C10_empty_field_rows_witness :
    chunkFor (fun _ => none) "p" "g" "b" "score" PyVal.vNone = "" ∧
    chunkFor (fun _ => none) "p" "g" "b" "key_issues_to_review" (PyVal.vList []) =
      "<tr><td>⚡&nbsp;<strong>No major issues detected</strong></td></tr>\n" ∧
    chunkFor (fun _ => none) "p" "g" "b" "key_issues_to_review" (PyVal.vStr "No") =
      "<tr><td>⚡&nbsp;<strong>No major issues detected</strong></td></tr>\n" :=
  ⟨C10_empty_field_rows.1 (fun _ => none) "p" "g" "b" "score" PyVal.vNone rfl (by decide),
   C10_empty_field_rows.2.1 (fun _ => none) "p" "g" "b" (PyVal.vList []) rfl,
   C10_empty_field_rows.2.2 (fun _ => none) "p" "g" "b" "No" (by decide)⟩

end GitLabAgent
